import Mathlib

/-!
Verification development for the TensorFlow Lite dummy delegate
(tensorflow/lite/delegates/utils/dummy_delegate/dummy_delegate.cc).

The file shallowly embeds the delegate plugin: tensors are values holding a
type tag and a data buffer, the host context is a record of its tensor heap,
its reported-error log and its node/registration table, and the stateful
kernel object (class DummyDelegateKernel) is passed explicitly.  Element data
is generic in a scalar type with addition and subtraction, mirroring the C
code, which only ever combines elements with the builtin + and - operators.
An out-of-bounds raw array read in the C code (undefined behavior) is
modelled by the value none of an Option-typed result.
-/

namespace tflite
namespace dummy_test

/-- Status codes of the TfLiteStatus enum from the host ABI that this file
uses (the enum has further members, none of which occur here). -/
inductive TfLiteStatus where
  | kTfLiteOk
  | kTfLiteError
  | kTfLiteDelegateError
deriving DecidableEq, Repr

export TfLiteStatus (kTfLiteOk kTfLiteError kTfLiteDelegateError)

/-- Builtin operator code kTfLiteBuiltinAdd from tensorflow/lite/builtin_ops.h. -/
def kTfLiteBuiltinAdd : Int := 0

/-- Builtin operator code kTfLiteBuiltinFullyConnected from tensorflow/lite/builtin_ops.h. -/
def kTfLiteBuiltinFullyConnected : Int := 9

/-- Builtin operator code kTfLiteBuiltinSub from tensorflow/lite/builtin_ops.h. -/
def kTfLiteBuiltinSub : Int := 41

/-- Tensor element type tags of the TfLiteType enum from the host ABI. -/
inductive TfLiteType where
  | kTfLiteNoType
  | kTfLiteFloat32
  | kTfLiteInt32
  | kTfLiteUInt8
  | kTfLiteInt64
  | kTfLiteString
  | kTfLiteBool
  | kTfLiteInt16
  | kTfLiteComplex64
  | kTfLiteInt8
  | kTfLiteFloat16
deriving DecidableEq, Repr

/-- Host helper TfLiteTypeGetName: printable name of a TfLiteType tag. -/
def TfLiteTypeGetName : TfLiteType → String
  | .kTfLiteNoType => "NOTYPE"
  | .kTfLiteFloat32 => "FLOAT32"
  | .kTfLiteInt32 => "INT32"
  | .kTfLiteUInt8 => "UINT8"
  | .kTfLiteInt64 => "INT64"
  | .kTfLiteString => "STRING"
  | .kTfLiteBool => "BOOL"
  | .kTfLiteInt16 => "INT16"
  | .kTfLiteComplex64 => "COMPLEX64"
  | .kTfLiteInt8 => "INT8"
  | .kTfLiteFloat16 => "FLOAT16"

/-- A tensor: its element type tag and its data buffer.  The element count of
a tensor is identified with the length of its data buffer (the host engine
invariant that the allocated buffer matches the product of the dims).  The
scalar type is a parameter; the delegate only reads elements and combines
them with + and -. -/
structure TfLiteTensor (α : Type) where
  type : TfLiteType
  data : List α
deriving DecidableEq, Repr

/-- Host helper NumElements from tensorflow/lite/kernels/kernel_util: the
element count of a tensor, here the length of the data buffer. -/
def NumElements {α : Type} (t : TfLiteTensor α) : Nat :=
  t.data.length

/-- The empty tensor, used as the junk value an invalid raw pointer access
dereferences in the embedding. -/
def emptyTensor {α : Type} : TfLiteTensor α :=
  { type := .kTfLiteNoType, data := [] }

/-- Struct OpData, verbatim from dummy_delegate.cc (quantization bookkeeping;
no code path of the file ever reads it). -/
structure OpData where
  output_multiplier : Int
  output_shift : Int
  output_activation_min : Int
  output_activation_max : Int
  scratch_tensor_index : Int
  compute_row_sums : Bool
  ledger_initialized : Bool
deriving DecidableEq, Repr

/-- Struct TfLiteFullyConnectedParams from the host ABI (builtin op data of a
FullyConnected node).  Only passed around, never read, by this file.  The
activation is kept as its raw enum integer. -/
structure TfLiteFullyConnectedParams where
  activation : Int
  keep_num_dims : Bool
  asymmetric_quantize_inputs : Bool
deriving DecidableEq, Repr

/-- A graph node as the delegate sees it: the tensor indices of its inputs
and outputs (entries of the TfLiteIntArray fields of TfLiteNode), plus the
builtin-op payload and the user data that dummyFullyConnected casts from the
raw pointers builtin_data and user_data. -/
structure TfLiteNode where
  inputs : List Int
  outputs : List Int
  builtin_data : TfLiteFullyConnectedParams
  user_data : OpData
deriving DecidableEq, Repr

/-- A registration: the only field this file reads is builtin_code. -/
structure TfLiteRegistration where
  builtin_code : Int
deriving DecidableEq, Repr

/-- The host context as the delegate observes it: the tensor heap
(context->tensors, indexed by tensor index), the log of messages passed to
context->ReportError, and the node table behind context->GetNodeAndRegistration,
modelled as a finite association list from node index to node and registration. -/
structure TfLiteContext (α : Type) where
  tensors : List (TfLiteTensor α)
  errors : List String
  nodes : List (Int × TfLiteNode × TfLiteRegistration)
deriving DecidableEq, Repr

/-- Host call context->ReportError: appends the message to the context log. -/
def reportError {α : Type} (ctx : TfLiteContext α) (msg : String) : TfLiteContext α :=
  { ctx with errors := ctx.errors ++ [msg] }

/-- Host call context->GetNodeAndRegistration: looks the node index up in the
context node table; none models a non-kTfLiteOk status. -/
def GetNodeAndRegistration {α : Type} (ctx : TfLiteContext α) (node_index : Int) :
    Option (TfLiteNode × TfLiteRegistration) :=
  ctx.nodes.lookup node_index

/-- Host helper GetInputSafe from tensorflow/lite/kernels/kernel_util
(outside src/; modelled from the spec, which leaves node and tensor indexing
to the host engine): returns the tensor at the index-th input slot of the
node, failing when the slot does not exist, is the optional marker -1, or
names no tensor of the heap. -/
def GetInputSafe {α : Type} (ctx : TfLiteContext α) (node : TfLiteNode) (index : Nat) :
    Option (TfLiteTensor α) :=
  match node.inputs.get? index with
  | none => none
  | some ti => if ti = -1 then none else ctx.tensors.get? ti.toNat

/-- Host helper GetOutputSafe from tensorflow/lite/kernels/kernel_util
(outside src/; modelled from the spec, as GetInputSafe): returns the tensor
at the index-th output slot of the node. -/
def GetOutputSafe {α : Type} (ctx : TfLiteContext α) (node : TfLiteNode) (index : Nat) :
    Option (TfLiteTensor α) :=
  match node.outputs.get? index with
  | none => none
  | some ti => if ti = -1 then none else ctx.tensors.get? ti.toNat

/-- Host helper GetOptionalInputTensor from tensorflow/lite/kernels/kernel_util
(outside src/; modelled from the spec, as GetInputSafe): like GetInputSafe
but a missing or optional input yields a null pointer, here none. -/
def GetOptionalInputTensor {α : Type} (ctx : TfLiteContext α) (node : TfLiteNode)
    (index : Nat) : Option (TfLiteTensor α) :=
  GetInputSafe ctx node index

/-- Struct DummyDelegateOptions.  Modelled from the spec: dummy_delegate.h is
not among the sources; the struct is modelled with the one field this file
touches, allowed_builtin_code, which TfLiteDummyDelegateOptionsDefault
zero-initializes and then sets to -1. -/
structure DummyDelegateOptions where
  allowed_builtin_code : Int
deriving DecidableEq, Repr

/-- Tensor index constant kInputTensor from dummy_delegate.cc. -/
def kInputTensor : Nat := 0

/-- Tensor index constant kWeightsTensor from dummy_delegate.cc. -/
def kWeightsTensor : Nat := 1

/-- Tensor index constant kBiasTensor from dummy_delegate.cc. -/
def kBiasTensor : Nat := 2

/-- Tensor index constant kOutputTensor from dummy_delegate.cc. -/
def kOutputTensor : Nat := 0

/-- Parameters the host hands to the per-partition Init call: the indices of
the nodes of the partition the delegate is to replace
(params->nodes_to_replace). -/
structure TfLiteDelegateParams where
  nodes_to_replace : List Int
deriving DecidableEq, Repr

/-- State of a DummyDelegateKernel object: the per-node recorded input and
output tensor indices, the recorded builtin codes, and the options the
constructor stored. -/
structure DummyDelegateKernel where
  inputs_ : List (List Int)
  outputs_ : List (List Int)
  builtin_code_ : List Int
  options_ : DummyDelegateOptions
deriving DecidableEq, Repr

/-- A freshly constructed DummyDelegateKernel: the three vectors are empty. -/
def DummyDelegateKernel.mkKernel (options : DummyDelegateOptions) : DummyDelegateKernel :=
  { inputs_ := [], outputs_ := [], builtin_code_ := [], options_ := options }

/-- Semantics of std::vector resize: truncate to n elements, padding with
value-initialized elements when the vector is shorter than n. -/
def resizeList {β : Type} (l : List β) (n : Nat) (dflt : β) : List β :=
  l.take n ++ List.replicate (n - l.length) dflt

namespace DummyDelegateKernel

/-- Elementwise operation of the add/sub kernel: the builtin + when the code
is kTfLiteBuiltinAdd, the builtin - otherwise. -/
def addSubOp {α : Type} [Add α] [Sub α] (builtin_code : Int) (a b : α) : α :=
  if builtin_code = kTfLiteBuiltinAdd then a + b else a - b

/-- DummyDelegateKernel::ComputeResult.  The C function receives pointers
into context->tensors; the embedding receives the heap and the three tensor
indices the pointers denote.  When any element count differs it returns
kTfLiteDelegateError before writing anything; otherwise it overwrites the
output data elementwise (output[i] = input1[i] op input2[i] for every i below
NumElements input1) and returns kTfLiteOk.  Elementwise in-place writing at
distinct indices reads slot i before writing slot i, so the functional update
below is exact even when the output pointer aliases an input.  The debug
print to stdout in the C body has no modelled effect. -/
def ComputeResult {α : Type} [Add α] [Sub α] (builtin_code : Int)
    (tensors : List (TfLiteTensor α)) (i1 i2 o : Nat) :
    TfLiteStatus × List (TfLiteTensor α) :=
  let t1 := tensors.getD i1 emptyTensor
  let t2 := tensors.getD i2 emptyTensor
  let out := tensors.getD o emptyTensor
  if NumElements t1 ≠ NumElements t2 ∨ NumElements t1 ≠ NumElements out then
    (kTfLiteDelegateError, tensors)
  else
    (kTfLiteOk,
      tensors.set o { out with data := List.zipWith (addSubOp builtin_code) t1.data t2.data })

/-- DummyDelegateKernel::myAddSub: reads the tensor indices the kernel
recorded for node slot idx, runs ComputeResult on them, and checks the
result with TF_LITE_ENSURE_EQ (on failure: log to the context and return
kTfLiteError).  After a successful check the C function falls off the end of
a non-void function, which is undefined behavior; every call site compares
the result against kTfLiteOk, so the embedding takes the evident intended
value kTfLiteOk on that path.  The node parameter is unused, as in the C. -/
def myAddSub {α : Type} [Add α] [Sub α] (s : DummyDelegateKernel)
    (ctx : TfLiteContext α) (builtin_code : Int) (node : TfLiteNode) (idx : Nat) :
    TfLiteStatus × TfLiteContext α :=
  let i1 := ((s.inputs_.getD idx []).getD 0 0).toNat
  let i2 := ((s.inputs_.getD idx []).getD 1 0).toNat
  let o := ((s.outputs_.getD idx []).getD 0 0).toNat
  match ComputeResult (s.builtin_code_.getD idx 0) ctx.tensors i1 i2 o with
  | (st, tensors) =>
    let ctx := { ctx with tensors := tensors }
    if st = kTfLiteOk then (kTfLiteOk, ctx)
    else (kTfLiteError, reportError ctx "ComputeResult(...) != kTfLiteOk")

/-- DummyDelegateKernel::dummyFullyConnectedFloat: the float path of the
fully-connected kernel is an intentional stub; it ignores every argument and
returns kTfLiteOk without touching the context. -/
def dummyFullyConnectedFloat {α : Type} (ctx : TfLiteContext α) (node : TfLiteNode)
    (params : TfLiteFullyConnectedParams) (data : OpData)
    (input filter : TfLiteTensor α) (bias : Option (TfLiteTensor α))
    (output : TfLiteTensor α) : TfLiteStatus × TfLiteContext α :=
  (kTfLiteOk, ctx)

/-- DummyDelegateKernel::dummyFullyConnected: fetches input, filter, optional
bias and output of the node through the safe host getters (TF_LITE_ENSURE_OK
propagates a getter failure as an error status), returns kTfLiteOk doing
nothing when the expected output is empty, dispatches to the float stub when
the filter type is kTfLiteFloat32, and otherwise reports the unsupported
filter type to the context and returns kTfLiteError.  The casts of
node->builtin_data and node->user_data are the modelled node fields.  The
idx parameter is unused, as in the C. -/
def dummyFullyConnected {α : Type} (ctx : TfLiteContext α) (node : TfLiteNode)
    (idx : Nat) : TfLiteStatus × TfLiteContext α :=
  let params := node.builtin_data
  let data := node.user_data
  match GetInputSafe ctx node kInputTensor with
  | none => (kTfLiteError, ctx)
  | some input =>
    match GetInputSafe ctx node kWeightsTensor with
    | none => (kTfLiteError, ctx)
    | some filter =>
      let bias :=
        if node.inputs.length = 3 then GetOptionalInputTensor ctx node kBiasTensor
        else none
      match GetOutputSafe ctx node kOutputTensor with
      | none => (kTfLiteError, ctx)
      | some output =>
        if NumElements output = 0 then (kTfLiteOk, ctx)
        else
          match filter.type with
          | .kTfLiteFloat32 =>
            dummyFullyConnectedFloat ctx node params data input filter bias output
          | t =>
            (kTfLiteError,
              reportError ctx
                ("Filter data type " ++ TfLiteTypeGetName t ++ " currently not supported."))

/-- Observable kernel invocations of Eval: which kernel ran on which recorded
node slot.  The trace instruments the dispatch so that which-kernel-executes
properties are statable; it adds no behavior. -/
inductive KernelCall where
  | addSub : Nat → KernelCall
  | fullyConnected : Nat → KernelCall
deriving DecidableEq, Repr

/-- Loop body chain of DummyDelegateKernel::Eval for the remaining slots,
starting at slot i.  The switch over builtin_code_[i] in the C source has no
break statements: the Add and Sub cases run myAddSub and then FALL THROUGH
into the FullyConnected case, which runs dummyFullyConnected; the
FullyConnected case runs dummyFullyConnected only; any other code runs no
kernel.  Each kernel result is checked with TF_LITE_ENSURE_EQ, which on a
non-kTfLiteOk result logs to the context and makes Eval return kTfLiteError. -/
def evalLoop {α : Type} [Add α] [Sub α] (s : DummyDelegateKernel) (node : TfLiteNode) :
    Nat → Nat → TfLiteContext α → TfLiteStatus × TfLiteContext α × List KernelCall
  | _, 0, ctx => (kTfLiteOk, ctx, [])
  | i, remaining + 1, ctx =>
    let code := s.builtin_code_.getD i 0
    if code = kTfLiteBuiltinAdd ∨ code = kTfLiteBuiltinSub then
      match myAddSub s ctx code node i with
      | (st, ctx) =>
        if st ≠ kTfLiteOk then
          (kTfLiteError, reportError ctx "myAddSub(...) != kTfLiteOk", [.addSub i])
        else
          match dummyFullyConnected ctx node i with
          | (st, ctx) =>
            if st ≠ kTfLiteOk then
              (kTfLiteError, reportError ctx "dummyFullyConnected(...) != kTfLiteOk",
                [.addSub i, .fullyConnected i])
            else
              match evalLoop s node (i + 1) remaining ctx with
              | (st, ctx, trace) => (st, ctx, .addSub i :: .fullyConnected i :: trace)
    else if code = kTfLiteBuiltinFullyConnected then
      match dummyFullyConnected ctx node i with
      | (st, ctx) =>
        if st ≠ kTfLiteOk then
          (kTfLiteError, reportError ctx "dummyFullyConnected(...) != kTfLiteOk",
            [.fullyConnected i])
        else
          match evalLoop s node (i + 1) remaining ctx with
          | (st, ctx, trace) => (st, ctx, .fullyConnected i :: trace)
    else
      evalLoop s node (i + 1) remaining ctx

/-- DummyDelegateKernel::Eval: iterates over every recorded node slot
(i from 0 below inputs_.size) and dispatches on the recorded builtin code;
returns kTfLiteOk when the loop completes. -/
def Eval {α : Type} [Add α] [Sub α] (s : DummyDelegateKernel) (ctx : TfLiteContext α)
    (node : TfLiteNode) : TfLiteStatus × TfLiteContext α × List KernelCall :=
  evalLoop s node 0 s.inputs_.length ctx

/-- Loop of DummyDelegateKernel::Init over the remaining node indices of
params->nodes_to_replace, with i the current slot.  A failing
GetNodeAndRegistration makes TF_LITE_ENSURE_EQ return kTfLiteError.  The C
body then reads inputs->data[0], inputs->data[1] and outputs->data[0] of the
delegated node with no bounds check; a read past the array is undefined
behavior, modelled by the result none.  On success the values are pushed
onto the slot vectors and the builtin code stored. -/
def initLoop {α : Type} (ctx : TfLiteContext α) :
    List Int → Nat → DummyDelegateKernel → Option (TfLiteStatus × DummyDelegateKernel)
  | [], _, s => some (kTfLiteOk, s)
  | node_index :: rest, i, s =>
    match GetNodeAndRegistration ctx node_index with
    | none => some (kTfLiteError, s)
    | some (delegated_node, delegated_node_registration) =>
      match delegated_node.inputs.get? 0, delegated_node.inputs.get? 1,
          delegated_node.outputs.get? 0 with
      | some in0, some in1, some out0 =>
        initLoop ctx rest (i + 1)
          { s with
            inputs_ := s.inputs_.set i ((s.inputs_.getD i []) ++ [in0, in1]),
            outputs_ := s.outputs_.set i ((s.outputs_.getD i []) ++ [out0]),
            builtin_code_ := s.builtin_code_.set i delegated_node_registration.builtin_code }
      | _, _, _ => none

/-- DummyDelegateKernel::Init: resizes the three vectors to the number of
nodes to replace, then records for each replaced node its first two input
tensor indices, its first output tensor index and its registration builtin
code.  The result none models an undefined out-of-bounds read. -/
def Init {α : Type} (ctx : TfLiteContext α) (params : TfLiteDelegateParams)
    (s : DummyDelegateKernel) : Option (TfLiteStatus × DummyDelegateKernel) :=
  let n := params.nodes_to_replace.length
  initLoop ctx params.nodes_to_replace 0
    { s with
      inputs_ := resizeList s.inputs_ n [],
      outputs_ := resizeList s.outputs_ n [],
      builtin_code_ := resizeList s.builtin_code_ n 0 }

/-- DummyDelegateKernel::Prepare: returns kTfLiteOk, touching nothing. -/
def Prepare {α : Type} (s : DummyDelegateKernel) (ctx : TfLiteContext α)
    (node : TfLiteNode) : TfLiteStatus × DummyDelegateKernel :=
  (kTfLiteOk, s)

end DummyDelegateKernel

namespace DummyDelegate

/-- DummyDelegate::IsNodeSupportedByDelegate: a switch over the registration
builtin code, true exactly for kTfLiteBuiltinAdd, kTfLiteBuiltinFullyConnected
and kTfLiteBuiltinSub.  The per-tensor float32 check of the C source is
commented out there and therefore absent here; the options member is never
consulted. -/
def IsNodeSupportedByDelegate {α : Type} (options : DummyDelegateOptions)
    (registration : TfLiteRegistration) (node : TfLiteNode)
    (ctx : TfLiteContext α) : Bool :=
  if registration.builtin_code = kTfLiteBuiltinAdd ∨
      registration.builtin_code = kTfLiteBuiltinFullyConnected ∨
      registration.builtin_code = kTfLiteBuiltinSub then
    true
  else
    false

/-- DummyDelegate Initialize method: returns kTfLiteOk unconditionally. -/
def Initialize {α : Type} (options : DummyDelegateOptions) (ctx : TfLiteContext α) :
    TfLiteStatus :=
  kTfLiteOk

end DummyDelegate

end dummy_test
end tflite

/-- TfLiteDummyDelegateOptionsDefault from dummy_delegate.cc: zero-initializes
the options and assigns the invalid builtin code -1. -/
def TfLiteDummyDelegateOptionsDefault : tflite.dummy_test.DummyDelegateOptions :=
  { allowed_builtin_code := -1 }

open tflite.dummy_test
open tflite.dummy_test.DummyDelegateKernel
open tflite.dummy_test.DummyDelegate

/-! Concrete fixtures used by counterexamples and witnesses.  The scalar type
is instantiated at Int so that every evaluation is decidable. -/

/-- Zero-initialized fully-connected builtin params. -/
def fcParamsZero : TfLiteFullyConnectedParams :=
  { activation := 0, keep_num_dims := false, asymmetric_quantize_inputs := false }

/-- Zero-initialized OpData. -/
def opDataZero : OpData :=
  { output_multiplier := 0, output_shift := 0, output_activation_min := 0,
    output_activation_max := 0, scratch_tensor_index := 0,
    compute_row_sums := false, ledger_initialized := false }

/-- Float32 tensor over Int data. -/
def floatTensor (data : List Int) : TfLiteTensor Int :=
  { type := .kTfLiteFloat32, data := data }

/-- A two-input one-output node reading tensors 0 and 1 and writing tensor 2. -/
def exampleAddNode : TfLiteNode :=
  { inputs := [0, 1], outputs := [2], builtin_data := fcParamsZero, user_data := opDataZero }

/-- Context with three float tensors of two elements each. -/
def exampleAddCtx : TfLiteContext Int :=
  { tensors := [floatTensor [1, 2], floatTensor [10, 20], floatTensor [0, 0]],
    errors := [], nodes := [] }

/-- Kernel state as Init records it for a one-node partition whose single
node has builtin code kTfLiteBuiltinAdd. -/
def exampleAddKernel : DummyDelegateKernel :=
  { inputs_ := [[0, 1]], outputs_ := [[2]], builtin_code_ := [kTfLiteBuiltinAdd],
    options_ := TfLiteDummyDelegateOptionsDefault }

/-- Fixed tensor heap for the C3 witness: two two-element inputs at indices 0
and 1 and a two-element output at index 2. -/
def c3Tensors : List (TfLiteTensor Int) :=
  [floatTensor [1, 2], floatTensor [10, 20], floatTensor [5, 6]]

/-- Node for the C9 witness: two inputs, one output. -/
def c9Node : TfLiteNode :=
  { inputs := [0, 1], outputs := [2], builtin_data := fcParamsZero, user_data := opDataZero }

/-- Context for the C9 witness: a non-empty input, a float32 filter and an
EMPTY output tensor at index 2. -/
def c9Ctx : TfLiteContext Int :=
  { tensors := [floatTensor [4], floatTensor [9], floatTensor []],
    errors := [], nodes := [] }

/-- Node table context for the C6 and C10 witnesses: node index 5 resolves to
an Add node over tensors 0, 1, 2 and node index 7 to a Sub node over the
same tensors. -/
def initCtx : TfLiteContext Int :=
  { tensors := [], errors := [],
    nodes := [(5, exampleAddNode, { builtin_code := kTfLiteBuiltinAdd }),
              (7, exampleAddNode, { builtin_code := kTfLiteBuiltinSub })] }

/-- Partition parameters for the C6 and C10 witnesses. -/
def initParams : TfLiteDelegateParams :=
  { nodes_to_replace := [5, 7] }

/-- A malformed node with a single input: reading inputs->data[1] in Init is
an out-of-bounds access on it. -/
def oneInputNode : TfLiteNode :=
  { inputs := [3], outputs := [4], builtin_data := fcParamsZero, user_data := opDataZero }

/-- Context whose node 0 is the malformed single-input node. -/
def oneInputCtx : TfLiteContext Int :=
  { tensors := [], errors := [],
    nodes := [(0, oneInputNode, { builtin_code := kTfLiteBuiltinAdd })] }

/-- Partition replacing exactly the malformed node. -/
def oneInputParams : TfLiteDelegateParams :=
  { nodes_to_replace := [0] }

/-- Specification helper: the input tensor indices Init records for the
replaced node at graph index idx (its first two input indices). -/
def recordedInputs {α : Type} (ctx : TfLiteContext α) (idx : Int) : List Int :=
  match GetNodeAndRegistration ctx idx with
  | some (node, _) => [node.inputs.getD 0 0, node.inputs.getD 1 0]
  | none => []

/-- Specification helper: the output tensor index Init records for the
replaced node at graph index idx (its first output index). -/
def recordedOutputs {α : Type} (ctx : TfLiteContext α) (idx : Int) : List Int :=
  match GetNodeAndRegistration ctx idx with
  | some (node, _) => [node.outputs.getD 0 0]
  | none => []

/-- Specification helper: the builtin code Init records for the replaced node
at graph index idx. -/
def recordedCode {α : Type} (ctx : TfLiteContext α) (idx : Int) : Int :=
  match GetNodeAndRegistration ctx idx with
  | some (_, registration) => registration.builtin_code
  | none => 0

/-- Specification helper: the node at graph index idx resolves and has at
least two inputs and at least one output. -/
def wellFormedNode {α : Type} (ctx : TfLiteContext α) (idx : Int) : Bool :=
  match GetNodeAndRegistration ctx idx with
  | some (node, _) => decide (2 ≤ node.inputs.length) && decide (1 ≤ node.outputs.length)
  | none => false

/-- Specification helper: the raw reads Init performs on the node at graph
index idx stay in bounds: either GetNodeAndRegistration fails (Init then
returns an error before any raw read) or the node has at least two inputs
and at least one output. -/
def nodeAccessSafe {α : Type} (ctx : TfLiteContext α) (idx : Int) : Bool :=
  match GetNodeAndRegistration ctx idx with
  | some (node, _) => decide (2 ≤ node.inputs.length) && decide (1 ≤ node.outputs.length)
  | none => true

/-- C1.  For every partition recorded by Init, Eval dispatches each recorded
node by its stored builtin code: Add/Sub nodes by myAddSub only, FullyConnected
nodes by dummyFullyConnected only, all other codes by no kernel.

REFUTED at the failing input below, and the spec (three-way opcode dispatch)
is clearly the intent, the code a slip: the Add and Sub cases of the switch
in Eval have no break statement, so after myAddSub succeeds control falls
through into the kTfLiteBuiltinFullyConnected case and the very same Add node
is also executed by dummyFullyConnected (which then reinterprets the Add
builtin data as fully-connected params).  On the recorded one-Add-node
partition, Eval returns kTfLiteOk and its kernel-invocation trace contains a
dummyFullyConnected call besides the myAddSub call. -/
theorem c1_eval_add_node_falls_through_to_fully_connected :
    ( Eval exampleAddKernel exampleAddCtx exampleAddNode).1 = kTfLiteOk ∧
    ( Eval exampleAddKernel exampleAddCtx exampleAddNode).2.2 =
      [KernelCall.addSub 0, KernelCall.fullyConnected 0] := by
  constructor
  · decide
  · decide

/-- C2.  IsNodeSupportedByDelegate returns true exactly when the builtin code
of the registration is kTfLiteBuiltinAdd, kTfLiteBuiltinSub or
kTfLiteBuiltinFullyConnected, and false for every other builtin code. -/
theorem c2_is_node_supported_iff_add_sub_fully_connected {α : Type}
    (options : DummyDelegateOptions) (registration : TfLiteRegistration)
    (node : TfLiteNode) (ctx : TfLiteContext α) :
    ( IsNodeSupportedByDelegate options registration node ctx = true ↔
      (registration.builtin_code = kTfLiteBuiltinAdd ∨
       registration.builtin_code = kTfLiteBuiltinSub ∨
       registration.builtin_code = kTfLiteBuiltinFullyConnected)) ∧
    (¬ (registration.builtin_code = kTfLiteBuiltinAdd ∨
        registration.builtin_code = kTfLiteBuiltinSub ∨
        registration.builtin_code = kTfLiteBuiltinFullyConnected) →
      IsNodeSupportedByDelegate options registration node ctx = false) := by
  unfold tflite.dummy_test.DummyDelegate.IsNodeSupportedByDelegate
  by_cases h : registration.builtin_code = kTfLiteBuiltinAdd ∨
      registration.builtin_code = kTfLiteBuiltinFullyConnected ∨
      registration.builtin_code = kTfLiteBuiltinSub <;>
    simp [h] <;> tauto

/-- C7.  Initialize returns kTfLiteOk for every context, and Prepare returns
kTfLiteOk for every context and node without modifying any state recorded by
Init (the kernel state is returned unchanged). -/
theorem c7_initialize_prepare_always_ok {α : Type} (options : DummyDelegateOptions)
    (s : DummyDelegateKernel) (ctx ctx2 : TfLiteContext α) (node : TfLiteNode) :
    Prepare s ctx node = (kTfLiteOk, s) ∧ Initialize options ctx2 = kTfLiteOk :=
  ⟨rfl, rfl⟩

/-- C8.  Node support is independent of the delegate options: for any two
options values, IsNodeSupportedByDelegate agrees on every registration, node
and context; in particular the default options, whose allowed_builtin_code is
-1, claim the same nodes as any other options value. -/
theorem c8_node_support_independent_of_options {α : Type}
    (options1 options2 : DummyDelegateOptions) (registration : TfLiteRegistration)
    (node : TfLiteNode) (ctx : TfLiteContext α) :
    IsNodeSupportedByDelegate options1 registration node ctx =
      IsNodeSupportedByDelegate options2 registration node ctx ∧
    TfLiteDummyDelegateOptionsDefault.allowed_builtin_code = -1 :=
  ⟨rfl, rfl⟩

/-- C4.  The fully-connected float kernel is a stub: whenever the filter has
type float32 and the output is non-empty (the conditions under which
dummyFullyConnected dispatches to it), dummyFullyConnectedFloat returns
kTfLiteOk and performs no computation, leaving the context, and with it the
output tensor and every other tensor, exactly unchanged. -/
theorem c4_dummy_fully_connected_float_is_no_op {α : Type}
    (ctx : TfLiteContext α) (node : TfLiteNode) (params : TfLiteFullyConnectedParams)
    (data : OpData) (input filter : TfLiteTensor α) (bias : Option (TfLiteTensor α))
    (output : TfLiteTensor α)
    (hfilter : filter.type = .kTfLiteFloat32) (hout : NumElements output ≠ 0) :
    dummyFullyConnectedFloat ctx node params data input filter bias output =
      (kTfLiteOk, ctx) :=
  rfl

/-- Witness for C4 at a concrete input. -/
theorem c4_witness :
    (floatTensor [3]).type = .kTfLiteFloat32 ∧ NumElements (floatTensor [7]) ≠ 0 ∧
    dummyFullyConnectedFloat exampleAddCtx exampleAddNode fcParamsZero opDataZero
        (floatTensor [5]) (floatTensor [3]) none (floatTensor [7]) =
      (kTfLiteOk, exampleAddCtx) :=
  ⟨by decide, by decide,
    c4_dummy_fully_connected_float_is_no_op exampleAddCtx exampleAddNode fcParamsZero
      opDataZero (floatTensor [5]) (floatTensor [3]) none (floatTensor [7])
      (by decide) (by decide)⟩

/-- C3.  When the two inputs and the output all have the same element count,
ComputeResult returns kTfLiteOk and writes output[i] = input1[i] + input2[i]
for every index i when the builtin code is kTfLiteBuiltinAdd and
output[i] = input1[i] - input2[i] otherwise; the written output has exactly
the common element count (no broadcasting), the values are the raw sums or
differences (no activation clamp), only the data of the output changes (its
type tag is kept), and both input tensors, being tensors distinct from the
output, are left unchanged in the heap. -/
theorem c3_compute_result_elementwise_add_sub {α : Type} [Add α] [Sub α]
    (builtin_code : Int) (tensors : List (TfLiteTensor α)) (i1 i2 o : Nat)
    (ho : o < tensors.length) (hne1 : o ≠ i1) (hne2 : o ≠ i2)
    (hc1 : NumElements (tensors.getD i1 emptyTensor) =
           NumElements (tensors.getD i2 emptyTensor))
    (hc2 : NumElements (tensors.getD i1 emptyTensor) =
           NumElements (tensors.getD o emptyTensor)) :
    (ComputeResult builtin_code tensors i1 i2 o).1 = kTfLiteOk ∧
    ((ComputeResult builtin_code tensors i1 i2 o).2.getD o emptyTensor).type =
      (tensors.getD o emptyTensor).type ∧
    ((ComputeResult builtin_code tensors i1 i2 o).2.getD o emptyTensor).data.length =
      NumElements (tensors.getD i1 emptyTensor) ∧
    (∀ i a b, (tensors.getD i1 emptyTensor).data.get? i = some a →
      (tensors.getD i2 emptyTensor).data.get? i = some b →
      ((ComputeResult builtin_code tensors i1 i2 o).2.getD o emptyTensor).data.get? i =
        some (if builtin_code = kTfLiteBuiltinAdd then a + b else a - b)) ∧
    (ComputeResult builtin_code tensors i1 i2 o).2.get? i1 = tensors.get? i1 ∧
    (ComputeResult builtin_code tensors i1 i2 o).2.get? i2 = tensors.get? i2 ∧
    (ComputeResult builtin_code tensors i1 i2 o).2.length = tensors.length := by
  have hcond : ¬ (NumElements (tensors.getD i1 emptyTensor) ≠
        NumElements (tensors.getD i2 emptyTensor) ∨
      NumElements (tensors.getD i1 emptyTensor) ≠
        NumElements (tensors.getD o emptyTensor)) := by
    push_neg
    exact ⟨hc1, hc2⟩
  have hres : ComputeResult builtin_code tensors i1 i2 o =
      (kTfLiteOk, tensors.set o
        { tensors.getD o emptyTensor with
          data := List.zipWith (addSubOp builtin_code)
            (tensors.getD i1 emptyTensor).data (tensors.getD i2 emptyTensor).data }) := by
    unfold tflite.dummy_test.DummyDelegateKernel.ComputeResult
    simp only [if_neg hcond]
  have hslot : ((ComputeResult builtin_code tensors i1 i2 o).2.getD o emptyTensor) =
      { tensors.getD o emptyTensor with
        data := List.zipWith (addSubOp builtin_code)
          (tensors.getD i1 emptyTensor).data (tensors.getD i2 emptyTensor).data } := by
    rw [hres]
    simp only [List.getD_eq_getElem?_getD]
    rw [List.getElem?_set_eq_of_lt _ ho]
    rfl
  refine ⟨by rw [hres], ?_, ?_, ?_, ?_, ?_, ?_⟩
  · rw [hslot]
  · rw [hslot]
    simpa [NumElements, List.length_zipWith] using hc1.le
  · intro i a b ha hb
    rw [hslot]
    simp only [List.get?_zipWith', ha, hb, Option.map_some, Option.bind_some]
    rfl
  · rw [hres]
    exact List.get?_set_ne _ _ hne1
  · rw [hres]
    exact List.get?_set_ne _ _ hne2
  · rw [hres]
    exact List.length_set ..

/-- Witness for C3 at a concrete input, with the Sub opcode exercising the
otherwise branch. -/
theorem c3_witness :
    (2 < c3Tensors.length ∧ (2 : Nat) ≠ 0 ∧ (2 : Nat) ≠ 1 ∧
      NumElements (c3Tensors.getD 0 emptyTensor) =
        NumElements (c3Tensors.getD 1 emptyTensor) ∧
      NumElements (c3Tensors.getD 0 emptyTensor) =
        NumElements (c3Tensors.getD 2 emptyTensor)) ∧
    ((ComputeResult kTfLiteBuiltinSub c3Tensors 0 1 2).1 = kTfLiteOk ∧
      ((ComputeResult kTfLiteBuiltinSub c3Tensors 0 1 2).2.getD 2 emptyTensor).type =
        (c3Tensors.getD 2 emptyTensor).type ∧
      ((ComputeResult kTfLiteBuiltinSub c3Tensors 0 1 2).2.getD 2 emptyTensor).data.length =
        NumElements (c3Tensors.getD 0 emptyTensor) ∧
      (∀ i a b, (c3Tensors.getD 0 emptyTensor).data.get? i = some a →
        (c3Tensors.getD 1 emptyTensor).data.get? i = some b →
        ((ComputeResult kTfLiteBuiltinSub c3Tensors 0 1 2).2.getD 2 emptyTensor).data.get? i =
          some (if kTfLiteBuiltinSub = kTfLiteBuiltinAdd then a + b else a - b)) ∧
      (ComputeResult kTfLiteBuiltinSub c3Tensors 0 1 2).2.get? 0 = c3Tensors.get? 0 ∧
      (ComputeResult kTfLiteBuiltinSub c3Tensors 0 1 2).2.get? 1 = c3Tensors.get? 1 ∧
      (ComputeResult kTfLiteBuiltinSub c3Tensors 0 1 2).2.length = c3Tensors.length) :=
  ⟨⟨by decide, by decide, by decide, by decide, by decide⟩,
    c3_compute_result_elementwise_add_sub kTfLiteBuiltinSub c3Tensors 0 1 2
      (by decide) (by decide) (by decide) (by decide) (by decide)⟩

/-- C5.  ComputeResult returns kTfLiteDelegateError whenever the element
count of the first input differs from that of the second input or from that
of the output, and in that case it returns before writing anything: the whole
tensor heap, and so in particular the output tensor, is unchanged. -/
theorem c5_compute_result_size_mismatch_atomic_error {α : Type} [Add α] [Sub α]
    (builtin_code : Int) (tensors : List (TfLiteTensor α)) (i1 i2 o : Nat)
    (h : NumElements (tensors.getD i1 emptyTensor) ≠
           NumElements (tensors.getD i2 emptyTensor) ∨
         NumElements (tensors.getD i1 emptyTensor) ≠
           NumElements (tensors.getD o emptyTensor)) :
    ComputeResult builtin_code tensors i1 i2 o = (kTfLiteDelegateError, tensors) := by
  unfold tflite.dummy_test.DummyDelegateKernel.ComputeResult
  simp only [if_pos h]

/-- Witness for C5 at a concrete input: inputs of two elements, output of one. -/
theorem c5_witness :
    (NumElements ((([floatTensor [1, 2], floatTensor [3, 4], floatTensor [0]] :
          List (TfLiteTensor Int))).getD 0 emptyTensor) ≠
        NumElements (([floatTensor [1, 2], floatTensor [3, 4], floatTensor [0]] :
          List (TfLiteTensor Int)).getD 1 emptyTensor) ∨
      NumElements (([floatTensor [1, 2], floatTensor [3, 4], floatTensor [0]] :
          List (TfLiteTensor Int)).getD 0 emptyTensor) ≠
        NumElements (([floatTensor [1, 2], floatTensor [3, 4], floatTensor [0]] :
          List (TfLiteTensor Int)).getD 2 emptyTensor)) ∧
    ComputeResult kTfLiteBuiltinAdd
        [floatTensor [1, 2], floatTensor [3, 4], floatTensor [0]] 0 1 2 =
      (kTfLiteDelegateError, [floatTensor [1, 2], floatTensor [3, 4], floatTensor [0]]) :=
  ⟨by decide,
    c5_compute_result_size_mismatch_atomic_error kTfLiteBuiltinAdd
      [floatTensor [1, 2], floatTensor [3, 4], floatTensor [0]] 0 1 2 (by decide)⟩

/-- C9.  Given that the safe getters of dummyFullyConnected succeed (the node
has resolvable input, filter and output tensors), the kernel returns kTfLiteOk
without touching the context when the output tensor has zero elements;
otherwise, whenever the filter type is not float32, it reports the
unsupported filter type to the context and returns kTfLiteError, leaving the
tensor heap, and so the output tensor, unchanged. -/
theorem c9_dummy_fully_connected_empty_output_or_unsupported_filter {α : Type}
    (ctx : TfLiteContext α) (node : TfLiteNode) (idx : Nat)
    (input filter output : TfLiteTensor α)
    (hi : GetInputSafe ctx node kInputTensor = some input)
    (hf : GetInputSafe ctx node kWeightsTensor = some filter)
    (ho : GetOutputSafe ctx node kOutputTensor = some output) :
    (NumElements output = 0 → dummyFullyConnected ctx node idx = (kTfLiteOk, ctx)) ∧
    (NumElements output ≠ 0 → filter.type ≠ .kTfLiteFloat32 →
      dummyFullyConnected ctx node idx =
        (kTfLiteError, reportError ctx ("Filter data type " ++
          TfLiteTypeGetName filter.type ++ " currently not supported.")) ∧
      (reportError ctx ("Filter data type " ++
        TfLiteTypeGetName filter.type ++ " currently not supported.")).tensors =
        ctx.tensors) := by
  constructor
  · intro h0
    unfold tflite.dummy_test.DummyDelegateKernel.dummyFullyConnected
    simp only [hi, hf, ho, h0, if_pos]
  · intro hnz hft
    refine ⟨?_, rfl⟩
    unfold tflite.dummy_test.DummyDelegateKernel.dummyFullyConnected
    simp only [hi, hf, ho, if_neg hnz]

/-- Witness for C9 at a concrete input whose output tensor is empty. -/
theorem c9_witness :
    GetInputSafe c9Ctx c9Node kInputTensor = some (floatTensor [4]) ∧
    GetInputSafe c9Ctx c9Node kWeightsTensor = some (floatTensor [9]) ∧
    GetOutputSafe c9Ctx c9Node kOutputTensor = some (floatTensor []) ∧
    NumElements (floatTensor ([] : List Int)) = 0 ∧
    dummyFullyConnected c9Ctx c9Node 0 = (kTfLiteOk, c9Ctx) :=
  ⟨by decide, by decide, by decide, by decide,
    (c9_dummy_fully_connected_empty_output_or_unsupported_filter c9Ctx c9Node 0
      (floatTensor [4]) (floatTensor [9]) (floatTensor [])
      (by decide) (by decide) (by decide)).1 (by decide)⟩

/-- Helper: an in-bounds get? returns the getD value. -/
theorem list_get_eq_some_getD {β : Type} :
    ∀ (l : List β) (i : Nat), i < l.length → ∀ d : β, l.get? i = some (l.getD i d)
  | _ :: _, 0, _, _ => rfl
  | _ :: l, i + 1, h, d => list_get_eq_some_getD l i (by simpa using h) d
  | [], _, h, _ => absurd h (by simp)

/-- Helper: setting the slot right after a prefix replaces the head of the
suffix. -/
theorem list_set_append_at {β : Type} :
    ∀ (p : List β) (x y : β) (t : List β) (i : Nat), i = p.length →
      (p ++ x :: t).set i y = p ++ y :: t
  | [], _, _, _, _, h => by subst h; rfl
  | a :: p, x, y, t, i, h => by
      subst h
      exact congrArg (List.cons a) (list_set_append_at p x y t p.length rfl)

/-- Helper: reading the slot right after a prefix gives the head of the
suffix. -/
theorem list_getD_append_at {β : Type} :
    ∀ (p : List β) (x : β) (t : List β) (d : β) (i : Nat), i = p.length →
      (p ++ x :: t).getD i d = x
  | [], _, _, _, _, h => by subst h; rfl
  | a :: p, x, t, d, i, h => by
      subst h
      exact list_getD_append_at p x t d p.length rfl

/-- Central characterization of the Init loop: starting from a state whose
first p-many slots hold arbitrary prefixes and whose remaining slots are the
value-initialized resize padding, a loop over well-formed node indices
returns kTfLiteOk and fills the remaining slots with exactly the recorded
values of each node, in order. -/
theorem initLoop_spec {α : Type} (ctx : TfLiteContext α) (opts : DummyDelegateOptions) :
    ∀ (rest : List Int) (p1 p2 : List (List Int)) (p3 : List Int),
      (∀ idx ∈ rest, wellFormedNode ctx idx = true) →
      p2.length = p1.length → p3.length = p1.length →
      initLoop ctx rest p1.length
        { inputs_ := p1 ++ List.replicate rest.length [],
          outputs_ := p2 ++ List.replicate rest.length [],
          builtin_code_ := p3 ++ List.replicate rest.length 0,
          options_ := opts }
      = some (kTfLiteOk,
        { inputs_ := p1 ++ rest.map (recordedInputs ctx),
          outputs_ := p2 ++ rest.map (recordedOutputs ctx),
          builtin_code_ := p3 ++ rest.map (recordedCode ctx),
          options_ := opts }) := by
  intro rest
  induction rest with
  | nil =>
    intro p1 p2 p3 _ _ _
    simp [tflite.dummy_test.DummyDelegateKernel.initLoop]
  | cons idx rest ih =>
    intro p1 p2 p3 hwf hp2 hp3
    have hidxwf := hwf idx (List.mem_cons_self idx rest)
    cases hGNR : GetNodeAndRegistration ctx idx with
    | none => simp [wellFormedNode, hGNR] at hidxwf
    | some nr =>
      obtain ⟨node, registration⟩ := nr
      have hwf2 : 2 ≤ node.inputs.length ∧ 1 ≤ node.outputs.length := by
        simpa [wellFormedNode, hGNR] using hidxwf
      have hin0 := list_get_eq_some_getD node.inputs 0 (by omega) 0
      have hin1 := list_get_eq_some_getD node.inputs 1 (by omega) 0
      have hout0 := list_get_eq_some_getD node.outputs 0 (by omega) 0
      have hrecIn : recordedInputs ctx idx =
          [node.inputs.getD 0 0, node.inputs.getD 1 0] := by
        simp [recordedInputs, hGNR]
      have hrecOut : recordedOutputs ctx idx = [node.outputs.getD 0 0] := by
        simp [recordedOutputs, hGNR]
      have hrecCode : recordedCode ctx idx = registration.builtin_code := by
        simp [recordedCode, hGNR]
      simp only [tflite.dummy_test.DummyDelegateKernel.initLoop, hGNR, hin0, hin1, hout0,
        List.length_cons, List.replicate_succ]
      rw [list_getD_append_at p1 _ _ _ _ rfl, list_set_append_at p1 _ _ _ _ rfl,
        list_getD_append_at p2 _ _ _ _ hp2.symm, list_set_append_at p2 _ _ _ _ hp2.symm,
        list_set_append_at p3 _ _ _ _ hp3.symm]
      simp only [List.nil_append]
      have hwfr : ∀ j ∈ rest, wellFormedNode ctx j = true :=
        fun j hj => hwf j (List.mem_cons_of_mem idx hj)
      have H := ih (p1 ++ [[node.inputs.getD 0 0, node.inputs.getD 1 0]])
        (p2 ++ [[node.outputs.getD 0 0]]) (p3 ++ [registration.builtin_code])
        hwfr (by simp [hp2]) (by simp [hp3])
      simp only [List.append_assoc, List.singleton_append, List.length_append,
        List.length_cons, List.length_nil] at H
      simp only [List.map_cons, hrecIn, hrecOut, hrecCode]
      exact H

/-- Helper: under the access-safety precondition the Init loop never performs
an out-of-bounds read, whatever the start state and slot index. -/
theorem initLoop_ne_none {α : Type} (ctx : TfLiteContext α) :
    ∀ (rest : List Int) (i : Nat) (s : DummyDelegateKernel),
      (∀ idx ∈ rest, nodeAccessSafe ctx idx = true) →
      initLoop ctx rest i s ≠ none := by
  intro rest
  induction rest with
  | nil =>
    intro i s _
    simp [tflite.dummy_test.DummyDelegateKernel.initLoop]
  | cons idx rest ih =>
    intro i s hsafe
    cases hGNR : GetNodeAndRegistration ctx idx with
    | none => simp [tflite.dummy_test.DummyDelegateKernel.initLoop, hGNR]
    | some nr =>
      obtain ⟨node, registration⟩ := nr
      have hsafe2 : 2 ≤ node.inputs.length ∧ 1 ≤ node.outputs.length := by
        simpa [nodeAccessSafe, hGNR] using hsafe idx (List.mem_cons_self idx rest)
      have hin0 := list_get_eq_some_getD node.inputs 0 (by omega) 0
      have hin1 := list_get_eq_some_getD node.inputs 1 (by omega) 0
      have hout0 := list_get_eq_some_getD node.outputs 0 (by omega) 0
      simp only [tflite.dummy_test.DummyDelegateKernel.initLoop, hGNR, hin0, hin1, hout0]
      exact ih _ _ (fun j hj => hsafe j (List.mem_cons_of_mem idx hj))

/-- Helper: Init on a fresh kernel, over well-formed nodes, yields exactly
the per-node recorded values. -/
theorem init_mkKernel_eq {α : Type} (ctx : TfLiteContext α)
    (params : TfLiteDelegateParams) (opts : DummyDelegateOptions)
    (hwf : ∀ idx ∈ params.nodes_to_replace, wellFormedNode ctx idx = true) :
    Init ctx params (mkKernel opts) = some (kTfLiteOk,
      { inputs_ := params.nodes_to_replace.map (recordedInputs ctx),
        outputs_ := params.nodes_to_replace.map (recordedOutputs ctx),
        builtin_code_ := params.nodes_to_replace.map (recordedCode ctx),
        options_ := opts }) := by
  have H := initLoop_spec ctx opts params.nodes_to_replace [] [] [] hwf rfl rfl
  simpa [tflite.dummy_test.DummyDelegateKernel.Init,
    tflite.dummy_test.DummyDelegateKernel.mkKernel, resizeList] using H

/-- C6.  For every partition whose replaced nodes all resolve through
GetNodeAndRegistration with at least two inputs and one output (the shape the
recorded fields presuppose), per-partition Init on a fresh kernel returns
kTfLiteOk, resizes inputs_, outputs_ and builtin_code_ to exactly the number
of nodes to replace, and records for the i-th replaced node, in the host
given order, exactly its first two input tensor indices, its first output
tensor index and its registration builtin code. -/
theorem c6_init_records_first_two_inputs_first_output_and_code {α : Type}
    (ctx : TfLiteContext α) (params : TfLiteDelegateParams)
    (options : DummyDelegateOptions)
    (hwf : ∀ idx ∈ params.nodes_to_replace, wellFormedNode ctx idx = true) :
    ∃ s, Init ctx params (mkKernel options) = some (kTfLiteOk, s) ∧
      s.inputs_.length = params.nodes_to_replace.length ∧
      s.outputs_.length = params.nodes_to_replace.length ∧
      s.builtin_code_.length = params.nodes_to_replace.length ∧
      ∀ i idx node registration,
        params.nodes_to_replace.get? i = some idx →
        GetNodeAndRegistration ctx idx = some (node, registration) →
        s.inputs_.get? i = some [node.inputs.getD 0 0, node.inputs.getD 1 0] ∧
        s.outputs_.get? i = some [node.outputs.getD 0 0] ∧
        s.builtin_code_.get? i = some registration.builtin_code := by
  refine ⟨_, init_mkKernel_eq ctx params options hwf, by simp, by simp, by simp, ?_⟩
  intro i idx node registration hget hGNR
  have hget2 : params.nodes_to_replace[i]? = some idx := by
    simpa [← List.get?_eq_getElem?] using hget
  refine ⟨?_, ?_, ?_⟩
  · simp only [List.get?_map]
    simp [recordedInputs]
    exact ⟨idx, hget2, by simp [hGNR]⟩
  · simp only [List.get?_map]
    simp [recordedOutputs]
    exact ⟨idx, hget2, by simp [hGNR]⟩
  · simp only [List.get?_map]
    simp [recordedCode]
    exact ⟨idx, hget2, by simp [hGNR]⟩

/-- Witness for C6 on a concrete two-node partition (an Add node and a Sub
node over tensors 0, 1, 2). -/
theorem c6_witness :
    (∀ idx ∈ initParams.nodes_to_replace, wellFormedNode initCtx idx = true) ∧
    (∃ s, Init initCtx initParams (mkKernel TfLiteDummyDelegateOptionsDefault) =
        some (kTfLiteOk, s) ∧
      s.inputs_.length = initParams.nodes_to_replace.length ∧
      s.outputs_.length = initParams.nodes_to_replace.length ∧
      s.builtin_code_.length = initParams.nodes_to_replace.length ∧
      ∀ i idx node registration,
        initParams.nodes_to_replace.get? i = some idx →
        GetNodeAndRegistration initCtx idx = some (node, registration) →
        s.inputs_.get? i = some [node.inputs.getD 0 0, node.inputs.getD 1 0] ∧
        s.outputs_.get? i = some [node.outputs.getD 0 0] ∧
        s.builtin_code_.get? i = some registration.builtin_code) :=
  ⟨by decide,
    c6_init_records_first_two_inputs_first_output_and_code initCtx initParams
      TfLiteDummyDelegateOptionsDefault (by decide)⟩

/-- C10.  Init reads input indices 0 and 1 and output index 0 of every
replaced node unconditionally, so its accesses stay in bounds exactly under
the precondition that every node it reaches has at least two inputs and one
output: under that precondition Init never hits the out-of-bounds marker,
every recorded per-node input list has exactly two entries (so the third,
bias, input of a three-input FullyConnected node is never recorded), and on
the concrete single-input node below Init does perform an out-of-bounds
read. -/
theorem c10_init_bounds_precondition_and_no_bias {α : Type}
    (ctx : TfLiteContext α) (params : TfLiteDelegateParams)
    (options : DummyDelegateOptions)
    (hsafe : ∀ idx ∈ params.nodes_to_replace, nodeAccessSafe ctx idx = true) :
    Init ctx params (mkKernel options) ≠ none ∧
    ((∀ idx ∈ params.nodes_to_replace, wellFormedNode ctx idx = true) →
      ∃ s, Init ctx params (mkKernel options) = some (kTfLiteOk, s) ∧
        ∀ l ∈ s.inputs_, l.length = 2) ∧
    Init oneInputCtx oneInputParams (mkKernel TfLiteDummyDelegateOptionsDefault) =
      none := by
  refine ⟨?_, ?_, by decide⟩
  · simp only [tflite.dummy_test.DummyDelegateKernel.Init]
    exact initLoop_ne_none ctx _ _ _ hsafe
  · intro hwf
    refine ⟨_, init_mkKernel_eq ctx params options hwf, ?_⟩
    intro l hl
    obtain ⟨idx, hidx, rfl⟩ := List.mem_map.mp hl
    have h := hwf idx hidx
    cases hGNR : GetNodeAndRegistration ctx idx with
    | none => simp [wellFormedNode, hGNR] at h
    | some nr => simp [recordedInputs, hGNR]

/-- Witness for C10 on the concrete two-node partition. -/
theorem c10_witness :
    (∀ idx ∈ initParams.nodes_to_replace, nodeAccessSafe initCtx idx = true) ∧
    ( Init initCtx initParams (mkKernel TfLiteDummyDelegateOptionsDefault) ≠ none ∧
      ((∀ idx ∈ initParams.nodes_to_replace, wellFormedNode initCtx idx = true) →
        ∃ s, Init initCtx initParams (mkKernel TfLiteDummyDelegateOptionsDefault) =
            some (kTfLiteOk, s) ∧
          ∀ l ∈ s.inputs_, l.length = 2) ∧
      Init oneInputCtx oneInputParams (mkKernel TfLiteDummyDelegateOptionsDefault) =
        none) :=
  ⟨by decide,
    c10_init_bounds_precondition_and_no_bias initCtx initParams
      TfLiteDummyDelegateOptionsDefault (by decide)⟩
